import Mathlib

/-!
# Verification of the React-Demo-App reducer components

Shallow embedding of the reducer logic of
`src/my-react-app/src/components/UseReducerDemo.jsx`, of the `Counter`
component's handlers, and of the browser effects of `UseEffectDemo`.

JavaScript objects are embedded as Lean structures; JS numbers appearing in
this code are integers and are embedded as `Int`; JS arrays as `List`.
Actions are records with a string `type` field, mirroring the JS
switch-on-`action.type` pattern, so that actions with unrecognized types are
expressible.

Because the claims under study speak about *object identity* (does a reducer
return a newly constructed object, the input object itself, or the
module-level initial-state constant?) and about *thrown exceptions*, each
reducer is embedded with codomain `JsOutcome σ`, which records which of these
four syntactic forms the JS `return` takes:
  * `fresh s`  — the branch returns a newly constructed object literal of value `s`;
  * `same`     — the branch is `return state` (the input object itself);
  * `initref`  — the branch returns the module-level initial-state constant;
  * `throws m` — the branch throws (explicitly, or by reading a property of
                 `undefined`, which in JS raises a `TypeError`).
`JsOutcome.run` recovers the value-level result (`none` = exception).
-/

inductive JsOutcome (σ : Type) where
  | fresh (s : σ)
  | same
  | initref
  | throws (msg : String)
deriving Repr, DecidableEq

namespace JsOutcome

/-- Value-level result of a reducer call: `init` is the module-level initial
state constant, `state` the input state. `none` means an exception escaped. -/
def run {σ : Type} (init state : σ) : JsOutcome σ → Option σ
  | .fresh s => some s
  | .same => some state
  | .initref => some init
  | .throws _ => none

/-- Does the outcome return a newly constructed object (distinct from both the
input object and the module-level constant)? -/
def isFresh {σ : Type} : JsOutcome σ → Bool
  | .fresh _ => true
  | _ => false

/-- Does the outcome raise an exception? -/
def isThrow {σ : Type} : JsOutcome σ → Bool
  | .throws _ => true
  | _ => false

end JsOutcome

/-! ## Pattern 1: counter reducer (UseReducerDemo.jsx lines 24-43) -/

structure CounterState where
  count : Int
deriving Repr, DecidableEq

def counterInitialState : CounterState := { count := 0 }

/-- A counter action: `type` is an arbitrary string (the JS switch matches it
against the recognized literals); `payload` is the numeric payload used by
`INCREMENT_BY` (the claims condition on it being numeric). -/
structure CounterAction where
  type : String
  payload : Int
deriving Repr, DecidableEq

def counterReducer (state : CounterState) (action : CounterAction) :
    JsOutcome CounterState :=
  if action.type = "INCREMENT" then
    .fresh { count := state.count + 1 }
  else if action.type = "DECREMENT" then
    .fresh { count := state.count - 1 }
  else if action.type = "RESET" then
    .fresh { count := 0 }
  else if action.type = "INCREMENT_BY" then
    .fresh { count := state.count + action.payload }
  else
    .throws ("Unknown action: " ++ action.type)

/-! ## Pattern 2: form reducer (UseReducerDemo.jsx lines 45-84)

The `errors` object is keyed by field name; a JS object with string values is
embedded as an association list updated by `setProp` (later spread keys
overwrite earlier ones, so `setProp` replaces an existing key in place and
otherwise appends). Dynamic field assignment `[action.field]: action.value`
is embedded by `FormState.setField`; field names other than the four declared
ones land in `extra`, modelling JS adding a property to the object (the
component only ever dispatches the four declared field names). -/

def setProp (obj : List (String × String)) (key v : String) :
    List (String × String) :=
  if obj.any (fun p => p.1 = key) then
    obj.map (fun p => if p.1 = key then (key, v) else p)
  else
    obj ++ [(key, v)]

structure FormState where
  username : String
  email : String
  password : String
  age : String
  errors : List (String × String)
  isSubmitting : Bool
  extra : List (String × String)
deriving Repr, DecidableEq

def formInitialState : FormState :=
  { username := ""
    email := ""
    password := ""
    age := ""
    errors := []
    isSubmitting := false
    extra := [] }

def FormState.setField (s : FormState) (f v : String) : FormState :=
  if f = "username" then { s with username := v }
  else if f = "email" then { s with email := v }
  else if f = "password" then { s with password := v }
  else if f = "age" then { s with age := v }
  else { s with extra := setProp s.extra f v }

structure FormAction where
  type : String
  field : String
  value : String
  error : String
  errors : List (String × String)
deriving Repr, DecidableEq

def formReducer (state : FormState) (action : FormAction) :
    JsOutcome FormState :=
  if action.type = "UPDATE_FIELD" then
    .fresh { (state.setField action.field action.value) with
             errors := setProp state.errors action.field "" }
  else if action.type = "SET_ERROR" then
    .fresh { state with errors := setProp state.errors action.field action.error }
  else if action.type = "SET_ERRORS" then
    .fresh { state with errors := action.errors }
  else if action.type = "SUBMIT_START" then
    .fresh { state with isSubmitting := true }
  else if action.type = "SUBMIT_SUCCESS" then
    .initref
  else if action.type = "SUBMIT_FAILURE" then
    .fresh { state with isSubmitting := false }
  else if action.type = "RESET_FORM" then
    .initref
  else
    .same

/-! ## Pattern 3: todo reducer (UseReducerDemo.jsx lines 86-133) -/

structure Todo where
  id : Int
  text : String
  completed : Bool
deriving Repr, DecidableEq

structure TodoState where
  todos : List Todo
  filter : String
  nextId : Int
deriving Repr, DecidableEq

def todoInitialState : TodoState :=
  { todos := []
    filter := "all"
    nextId := 1 }

structure TodoAction where
  type : String
  text : String
  id : Int
  filter : String
deriving Repr, DecidableEq

def todoReducer (state : TodoState) (action : TodoAction) :
    JsOutcome TodoState :=
  if action.type = "ADD_TODO" then
    .fresh { state with
             todos := state.todos ++
               [{ id := state.nextId, text := action.text, completed := false }]
             nextId := state.nextId + 1 }
  else if action.type = "TOGGLE_TODO" then
    .fresh { state with
             todos := state.todos.map (fun todo =>
               if todo.id = action.id then
                 { todo with completed := !todo.completed }
               else todo) }
  else if action.type = "DELETE_TODO" then
    .fresh { state with
             todos := state.todos.filter (fun todo => todo.id ≠ action.id) }
  else if action.type = "EDIT_TODO" then
    .fresh { state with
             todos := state.todos.map (fun todo =>
               if todo.id = action.id then { todo with text := action.text }
               else todo) }
  else if action.type = "SET_FILTER" then
    .fresh { state with filter := action.filter }
  else if action.type = "CLEAR_COMPLETED" then
    .fresh { state with
             todos := state.todos.filter (fun todo => !todo.completed) }
  else
    .same

/-! ## Pattern 4: shopping cart reducer (UseReducerDemo.jsx lines 135-188)

`ADD_ITEM` carries a product `{ id, name, price }`; the reducer stores cart
items `{ id, name, price, quantity }`. `Array.prototype.find` is embedded as
`List.find?`; when it returns `undefined` (here: `none`), the subsequent
property access `item.price` raises a `TypeError`, embedded as `.throws`. -/

structure Product where
  id : Int
  name : String
  price : Int
deriving Repr, DecidableEq

structure CartItem where
  id : Int
  name : String
  price : Int
  quantity : Int
deriving Repr, DecidableEq

structure CartState where
  items : List CartItem
  total : Int
deriving Repr, DecidableEq

def cartInitialState : CartState :=
  { items := []
    total := 0 }

structure CartAction where
  type : String
  item : Product
  id : Int
  quantity : Int
deriving Repr, DecidableEq

def cartReducer (state : CartState) (action : CartAction) :
    JsOutcome CartState :=
  if action.type = "ADD_ITEM" then
    match state.items.find? (fun item => item.id = action.item.id) with
    | some _ =>
        .fresh { items := state.items.map (fun item =>
                   if item.id = action.item.id then
                     { item with quantity := item.quantity + 1 }
                   else item)
                 total := state.total + action.item.price }
    | none =>
        .fresh { items := state.items ++
                   [{ id := action.item.id, name := action.item.name,
                      price := action.item.price, quantity := 1 }]
                 total := state.total + action.item.price }
  else if action.type = "REMOVE_ITEM" then
    match state.items.find? (fun item => item.id = action.id) with
    | some item =>
        .fresh { items := state.items.filter (fun it => it.id ≠ action.id)
                 total := state.total - item.price * item.quantity }
    | none =>
        .throws "TypeError: Cannot read properties of undefined (reading price)"
  else if action.type = "UPDATE_QUANTITY" then
    match state.items.find? (fun item => item.id = action.id) with
    | some item =>
        .fresh { items := state.items.map (fun it =>
                   if it.id = action.id then
                     { it with quantity := action.quantity }
                   else it)
                 total := state.total + item.price * (action.quantity - item.quantity) }
    | none =>
        .throws "TypeError: Cannot read properties of undefined (reading quantity)"
  else if action.type = "CLEAR_CART" then
    .initref
  else
    .same

/-! ## Counter component handlers (src/unnamed/part_001, lines 7-12) -/

namespace Counter

def increment (count : Int) : Int := count + 1

def decrement (count : Int) : Int := count - 1

def reset (_count : Int) : Int := 0

end Counter

/-! ## UseEffectDemo browser effects (src/unnamed/part_003)

The three always-installed effects of `UseEffectDemo` are embedded as the
lists of browser side effects their bodies perform. `countEffect` is the
effect with dependency array `[count]` (lines 51-56): it logs and then writes
the count to `localStorage` under the key `savedCount`. -/

inductive BrowserEffect where
  | consoleLog (msg : String)
  | setDocumentTitle (title : String)
  | storageWrite (key value : String)
deriving Repr, DecidableEq

namespace BrowserEffect

def isStorageWrite : BrowserEffect → Bool
  | .storageWrite _ _ => true
  | _ => false

end BrowserEffect

namespace UseEffectDemo

/-- Effect with no dependency array (runs after every render). -/
def renderEffect (count : Int) : List BrowserEffect :=
  [.consoleLog ("🔄 Component rendered! Count: " ++ toString count)]

/-- Effect with empty dependency array (runs once on mount). -/
def mountEffect : List BrowserEffect :=
  [.consoleLog "🚀 Component mounted! Running once.",
   .setDocumentTitle "useEffect Demo - React Hooks"]

/-- Effect with dependency array `[count]` (runs whenever `count` changes):
logs, then `localStorage.setItem('savedCount', count.toString())`. -/
def countEffect (count : Int) : List BrowserEffect :=
  [.consoleLog ("📊 Count changed to: " ++ toString count),
   .storageWrite "savedCount" (toString count)]

end UseEffectDemo

/-! ## Derived notions and helper lemmas -/

/-- The sum the cart UI displays as consistent total: sum over the items of
`price * quantity`. -/
def cartTotalOf (items : List CartItem) : Int :=
  (items.map (fun item => item.price * item.quantity)).sum

/-- Value-level run of the cart reducer (exception = `none`). -/
def cartRun (s : CartState) (a : CartAction) : Option CartState :=
  (cartReducer s a).run cartInitialState s

/-- Value-level run of the todo reducer (exception = `none`). -/
def todoRun (s : TodoState) (a : TodoAction) : Option TodoState :=
  (todoReducer s a).run todoInitialState s

theorem cartTotalOf_cons (x : CartItem) (l : List CartItem) :
    cartTotalOf (x :: l) = x.price * x.quantity + cartTotalOf l := by
  simp [cartTotalOf]

theorem cartTotalOf_append (l₁ l₂ : List CartItem) :
    cartTotalOf (l₁ ++ l₂) = cartTotalOf l₁ + cartTotalOf l₂ := by
  simp [cartTotalOf]

theorem list_map_eq_self {α : Type} (l : List α) (f : α → α)
    (h : ∀ x ∈ l, f x = x) : l.map f = l := by
  induction l with
  | nil => rfl
  | cons hd tl ih =>
      simp only [List.map_cons, h hd (by simp)]
      rw [ih (fun x hx => h x (by simp [hx]))]

theorem map_map_of_comp_eq {α β : Type} (l : List α) (f : α → α) (g : α → β)
    (h : ∀ x, g (f x) = g x) : (l.map f).map g = l.map g := by
  induction l with
  | nil => rfl
  | cons hd tl ih => simp [h, ih]

/-- Calls a reducer and also returns a snapshot of the state it was given;
used to express that the call leaves the input state intact. -/
def callWithSnapshot {σ α : Type} (f : σ → α → JsOutcome σ) (s : σ) (a : α) :
    JsOutcome σ × σ := (f s a, s)

/-! ## Claim theorems -/

/-- Claim C1: for every counter state, `counterReducer` applied to an action of
type INCREMENT returns a state whose count equals the input count plus 1, and
the `Counter` component's increment handler sets count to count + 1. -/
theorem counter_increment_adds_one (s : CounterState) (p : Int) (c : Int) :
    counterReducer s { type := "INCREMENT", payload := p } =
      JsOutcome.fresh { count := s.count + 1 } ∧
    Counter.increment c = c + 1 :=
  ⟨rfl, rfl⟩

/-- Claim C2, counterexample: on an action with the unrecognized type BOGUS,
`formReducer` takes its default branch and returns the input state object
itself, which is not a newly constructed object distinct from the input. -/
theorem formReducer_default_returns_input_object :
    formReducer formInitialState
        { type := "BOGUS", field := "", value := "", error := "", errors := [] } =
      JsOutcome.same ∧
    (JsOutcome.same : JsOutcome FormState).isFresh = false :=
  ⟨rfl, rfl⟩

/-- Claim C3, counterexample: `counterReducer` on an action with the
unrecognized type BOGUS throws (`throw new Error(...)` in the default branch)
rather than returning a state value. -/
theorem counterReducer_throws_on_unrecognized :
    counterReducer counterInitialState { type := "BOGUS", payload := 0 } =
      JsOutcome.throws "Unknown action: BOGUS" ∧
    (JsOutcome.throws "Unknown action: BOGUS" : JsOutcome CounterState).isThrow
      = true :=
  ⟨rfl, rfl⟩

/-- Claim C4: each of the four reducers is a pure function: two runs on equal
(state, action) inputs produce equal outputs, and the input state read back
after the call is the state that was passed in (in this value-semantics
embedding the source constructs results with object/array literals, spread,
`map`, `filter` and `find`, and never assigns to the input). -/
theorem reducers_pure
    (cs cs' : CounterState) (ca ca' : CounterAction)
    (fs fs' : FormState) (fa fa' : FormAction)
    (ts ts' : TodoState) (ta ta' : TodoAction)
    (gs gs' : CartState) (ga ga' : CartAction)
    (hcs : cs = cs') (hca : ca = ca') (hfs : fs = fs') (hfa : fa = fa')
    (hts : ts = ts') (hta : ta = ta') (hgs : gs = gs') (hga : ga = ga') :
    (counterReducer cs ca = counterReducer cs' ca' ∧
      (callWithSnapshot counterReducer cs ca).2 = cs) ∧
    (formReducer fs fa = formReducer fs' fa' ∧
      (callWithSnapshot formReducer fs fa).2 = fs) ∧
    (todoReducer ts ta = todoReducer ts' ta' ∧
      (callWithSnapshot todoReducer ts ta).2 = ts) ∧
    (cartReducer gs ga = cartReducer gs' ga' ∧
      (callWithSnapshot cartReducer gs ga).2 = gs) := by
  subst hcs hca hfs hfa hts hta hgs hga
  exact ⟨⟨rfl, rfl⟩, ⟨rfl, rfl⟩, ⟨rfl, rfl⟩, ⟨rfl, rfl⟩⟩

/-- Witness for C4 at concrete inputs. -/
theorem reducers_pure_witness :
    (counterReducer counterInitialState { type := "INCREMENT", payload := 0 } =
       counterReducer counterInitialState { type := "INCREMENT", payload := 0 } ∧
      (callWithSnapshot counterReducer counterInitialState
        { type := "INCREMENT", payload := 0 }).2 = counterInitialState) ∧
    (formReducer formInitialState
        { type := "SUBMIT_START", field := "", value := "", error := "", errors := [] } =
       formReducer formInitialState
        { type := "SUBMIT_START", field := "", value := "", error := "", errors := [] } ∧
      (callWithSnapshot formReducer formInitialState
        { type := "SUBMIT_START", field := "", value := "", error := "", errors := [] }).2
        = formInitialState) ∧
    (todoReducer todoInitialState
        { type := "ADD_TODO", text := "buy milk", id := 0, filter := "" } =
       todoReducer todoInitialState
        { type := "ADD_TODO", text := "buy milk", id := 0, filter := "" } ∧
      (callWithSnapshot todoReducer todoInitialState
        { type := "ADD_TODO", text := "buy milk", id := 0, filter := "" }).2
        = todoInitialState) ∧
    (cartReducer cartInitialState
        { type := "ADD_ITEM", item := { id := 1, name := "Laptop", price := 999 },
          id := 0, quantity := 0 } =
       cartReducer cartInitialState
        { type := "ADD_ITEM", item := { id := 1, name := "Laptop", price := 999 },
          id := 0, quantity := 0 } ∧
      (callWithSnapshot cartReducer cartInitialState
        { type := "ADD_ITEM", item := { id := 1, name := "Laptop", price := 999 },
          id := 0, quantity := 0 }).2 = cartInitialState) :=
  reducers_pure _ _ _ _ _ _ _ _ _ _ _ _ _ _ _ _
    rfl rfl rfl rfl rfl rfl rfl rfl

/-- Claim C2, amended: a reducer returns a newly constructed state object
exactly for: the counter's four recognized action types; the form's
UPDATE_FIELD, SET_ERROR, SET_ERRORS, SUBMIT_START and SUBMIT_FAILURE; the
todo's six recognized action types; the cart's ADD_ITEM, and REMOVE_ITEM and
UPDATE_QUANTITY when the id is present among the items. In the remaining
cases no new object is produced: formReducer's SUBMIT_SUCCESS and RESET_FORM
and cartReducer's CLEAR_CART return the module-level initial-state constant,
on unrecognized types formReducer, todoReducer and cartReducer return the
input state object itself, and counterReducer throws. -/
theorem reducers_freshness_characterization
    (cs : CounterState) (ca : CounterAction) (fs : FormState) (fa : FormAction)
    (ts : TodoState) (ta : TodoAction) (gs : CartState) (ga : CartAction) :
    ((counterReducer cs ca).isFresh = true ↔
       ca.type = "INCREMENT" ∨ ca.type = "DECREMENT" ∨ ca.type = "RESET" ∨
       ca.type = "INCREMENT_BY") ∧
    ((formReducer fs fa).isFresh = true ↔
       fa.type = "UPDATE_FIELD" ∨ fa.type = "SET_ERROR" ∨ fa.type = "SET_ERRORS" ∨
       fa.type = "SUBMIT_START" ∨ fa.type = "SUBMIT_FAILURE") ∧
    ((todoReducer ts ta).isFresh = true ↔
       ta.type = "ADD_TODO" ∨ ta.type = "TOGGLE_TODO" ∨ ta.type = "DELETE_TODO" ∨
       ta.type = "EDIT_TODO" ∨ ta.type = "SET_FILTER" ∨ ta.type = "CLEAR_COMPLETED") ∧
    ((cartReducer gs ga).isFresh = true ↔
       ga.type = "ADD_ITEM" ∨
       ((ga.type = "REMOVE_ITEM" ∨ ga.type = "UPDATE_QUANTITY") ∧
         ∃ item ∈ gs.items, item.id = ga.id)) ∧
    (fa.type = "SUBMIT_SUCCESS" ∨ fa.type = "RESET_FORM" →
       formReducer fs fa = JsOutcome.initref) ∧
    (ga.type = "CLEAR_CART" → cartReducer gs ga = JsOutcome.initref) ∧
    (¬(ca.type = "INCREMENT" ∨ ca.type = "DECREMENT" ∨ ca.type = "RESET" ∨
        ca.type = "INCREMENT_BY") →
       counterReducer cs ca = JsOutcome.throws ("Unknown action: " ++ ca.type)) ∧
    (¬(fa.type = "UPDATE_FIELD" ∨ fa.type = "SET_ERROR" ∨ fa.type = "SET_ERRORS" ∨
        fa.type = "SUBMIT_START" ∨ fa.type = "SUBMIT_SUCCESS" ∨
        fa.type = "SUBMIT_FAILURE" ∨ fa.type = "RESET_FORM") →
       formReducer fs fa = JsOutcome.same) ∧
    (¬(ta.type = "ADD_TODO" ∨ ta.type = "TOGGLE_TODO" ∨ ta.type = "DELETE_TODO" ∨
        ta.type = "EDIT_TODO" ∨ ta.type = "SET_FILTER" ∨ ta.type = "CLEAR_COMPLETED") →
       todoReducer ts ta = JsOutcome.same) ∧
    (¬(ga.type = "ADD_ITEM" ∨ ga.type = "REMOVE_ITEM" ∨ ga.type = "UPDATE_QUANTITY" ∨
        ga.type = "CLEAR_CART") →
       cartReducer gs ga = JsOutcome.same) := by
  refine ⟨?_, ?_, ?_, ?_, ?_, ?_, ?_, ?_, ?_, ?_⟩
  · unfold counterReducer
    split_ifs with h1 h2 h3 h4 <;> simp_all [JsOutcome.isFresh]
  · unfold formReducer
    split_ifs with h1 h2 h3 h4 h5 h6 h7 <;> simp_all [JsOutcome.isFresh]
  · unfold todoReducer
    split_ifs with h1 h2 h3 h4 h5 h6 <;> simp_all [JsOutcome.isFresh]
  · unfold cartReducer
    split_ifs with h1 h2 h3 h4
    · rcases hfind : gs.items.find? (fun item => item.id = ga.item.id) with _ | witem <;>
        rw [hfind] <;> simp_all [JsOutcome.isFresh]
    · rcases hfind : gs.items.find? (fun item => item.id = ga.id) with _ | witem
      · rw [hfind]
        rw [List.find?_eq_none] at hfind
        simp only [JsOutcome.isFresh]
        constructor
        · intro hc; exact absurd hc (by simp)
        · rintro (hc | ⟨-, item, hmem, hid⟩)
          · exact absurd hc h1
          · exact absurd (by simpa using hfind item hmem) (by simp [hid])
      · rw [hfind]
        have hmem := List.mem_of_find?_eq_some hfind
        have hid : witem.id = ga.id := by simpa using List.find?_some hfind
        simp [JsOutcome.isFresh, h2]
        exact ⟨witem, hmem, hid⟩
    · rcases hfind : gs.items.find? (fun item => item.id = ga.id) with _ | witem
      · rw [hfind]
        rw [List.find?_eq_none] at hfind
        simp only [JsOutcome.isFresh]
        constructor
        · intro hc; exact absurd hc (by simp)
        · rintro (hc | ⟨-, item, hmem, hid⟩)
          · exact absurd hc h1
          · exact absurd (by simpa using hfind item hmem) (by simp [hid])
      · rw [hfind]
        have hmem := List.mem_of_find?_eq_some hfind
        have hid : witem.id = ga.id := by simpa using List.find?_some hfind
        simp [JsOutcome.isFresh, h3]
        exact ⟨witem, hmem, hid⟩
    · simp_all [JsOutcome.isFresh]
    · simp_all [JsOutcome.isFresh]
  · intro h
    unfold formReducer
    rcases h with h | h <;> split_ifs <;> simp_all
  · intro h
    unfold cartReducer
    split_ifs <;> simp_all
  · intro h
    unfold counterReducer
    split_ifs <;> simp_all
  · intro h
    unfold formReducer
    split_ifs <;> simp_all
  · intro h
    unfold todoReducer
    split_ifs <;> simp_all
  · intro h
    unfold cartReducer
    split_ifs <;> simp_all

/-- Witness for the amended C2 at concrete inputs: a fresh object for
INCREMENT, the initial-state constant for RESET_FORM and CLEAR_CART, a throw
for an unrecognized counter action, and the input object itself for
unrecognized form, todo and cart actions. -/
theorem reducers_freshness_characterization_witness :
    (counterReducer counterInitialState
       { type := "INCREMENT", payload := 0 }).isFresh = true ∧
    formReducer formInitialState
        { type := "RESET_FORM", field := "", value := "", error := "", errors := [] }
      = JsOutcome.initref ∧
    cartReducer cartInitialState
        { type := "CLEAR_CART", item := { id := 0, name := "", price := 0 },
          id := 0, quantity := 0 }
      = JsOutcome.initref ∧
    counterReducer counterInitialState { type := "NOPE", payload := 0 }
      = JsOutcome.throws ("Unknown action: " ++ "NOPE") ∧
    formReducer formInitialState
        { type := "NOPE", field := "", value := "", error := "", errors := [] }
      = JsOutcome.same ∧
    todoReducer todoInitialState
        { type := "NOPE", text := "", id := 0, filter := "" }
      = JsOutcome.same ∧
    cartReducer cartInitialState
        { type := "NOPE", item := { id := 0, name := "", price := 0 },
          id := 0, quantity := 0 }
      = JsOutcome.same :=
  ⟨(reducers_freshness_characterization counterInitialState
      { type := "INCREMENT", payload := 0 } formInitialState
      { type := "RESET_FORM", field := "", value := "", error := "", errors := [] }
      todoInitialState { type := "NOPE", text := "", id := 0, filter := "" }
      cartInitialState
      { type := "CLEAR_CART", item := { id := 0, name := "", price := 0 },
        id := 0, quantity := 0 }).1.mpr (Or.inl rfl),
   (reducers_freshness_characterization counterInitialState
      { type := "INCREMENT", payload := 0 } formInitialState
      { type := "RESET_FORM", field := "", value := "", error := "", errors := [] }
      todoInitialState { type := "NOPE", text := "", id := 0, filter := "" }
      cartInitialState
      { type := "CLEAR_CART", item := { id := 0, name := "", price := 0 },
        id := 0, quantity := 0 }).2.2.2.2.1 (Or.inr rfl),
   (reducers_freshness_characterization counterInitialState
      { type := "INCREMENT", payload := 0 } formInitialState
      { type := "RESET_FORM", field := "", value := "", error := "", errors := [] }
      todoInitialState { type := "NOPE", text := "", id := 0, filter := "" }
      cartInitialState
      { type := "CLEAR_CART", item := { id := 0, name := "", price := 0 },
        id := 0, quantity := 0 }).2.2.2.2.2.1 rfl,
   (reducers_freshness_characterization counterInitialState
      { type := "NOPE", payload := 0 } formInitialState
      { type := "NOPE", field := "", value := "", error := "", errors := [] }
      todoInitialState { type := "NOPE", text := "", id := 0, filter := "" }
      cartInitialState
      { type := "NOPE", item := { id := 0, name := "", price := 0 },
        id := 0, quantity := 0 }).2.2.2.2.2.2.1 (by decide),
   (reducers_freshness_characterization counterInitialState
      { type := "NOPE", payload := 0 } formInitialState
      { type := "NOPE", field := "", value := "", error := "", errors := [] }
      todoInitialState { type := "NOPE", text := "", id := 0, filter := "" }
      cartInitialState
      { type := "NOPE", item := { id := 0, name := "", price := 0 },
        id := 0, quantity := 0 }).2.2.2.2.2.2.2.1 (by decide),
   (reducers_freshness_characterization counterInitialState
      { type := "NOPE", payload := 0 } formInitialState
      { type := "NOPE", field := "", value := "", error := "", errors := [] }
      todoInitialState { type := "NOPE", text := "", id := 0, filter := "" }
      cartInitialState
      { type := "NOPE", item := { id := 0, name := "", price := 0 },
        id := 0, quantity := 0 }).2.2.2.2.2.2.2.2.1 (by decide),
   (reducers_freshness_characterization counterInitialState
      { type := "NOPE", payload := 0 } formInitialState
      { type := "NOPE", field := "", value := "", error := "", errors := [] }
      todoInitialState { type := "NOPE", text := "", id := 0, filter := "" }
      cartInitialState
      { type := "NOPE", item := { id := 0, name := "", price := 0 },
        id := 0, quantity := 0 }).2.2.2.2.2.2.2.2.2 (by decide)⟩

/-- Claim C3, amended: formReducer and todoReducer never throw, for any state
and any action; counterReducer throws exactly on actions with unrecognized
type; cartReducer throws exactly on REMOVE_ITEM or UPDATE_QUANTITY actions
whose id is not among the items (the failed `find` yields `undefined` and the
subsequent property access faults). In all remaining cases the reducers
return a state value. -/
theorem reducers_throw_characterization
    (cs : CounterState) (ca : CounterAction) (fs : FormState) (fa : FormAction)
    (ts : TodoState) (ta : TodoAction) (gs : CartState) (ga : CartAction) :
    ((formReducer fs fa).isThrow = false) ∧
    ((todoReducer ts ta).isThrow = false) ∧
    ((counterReducer cs ca).isThrow = true ↔
       ¬(ca.type = "INCREMENT" ∨ ca.type = "DECREMENT" ∨ ca.type = "RESET" ∨
         ca.type = "INCREMENT_BY")) ∧
    ((cartReducer gs ga).isThrow = true ↔
       ((ga.type = "REMOVE_ITEM" ∨ ga.type = "UPDATE_QUANTITY") ∧
         ¬∃ item ∈ gs.items, item.id = ga.id)) := by
  refine ⟨?_, ?_, ?_, ?_⟩
  · unfold formReducer
    split_ifs <;> simp [JsOutcome.isThrow]
  · unfold todoReducer
    split_ifs <;> simp [JsOutcome.isThrow]
  · unfold counterReducer
    split_ifs with h1 h2 h3 h4 <;> simp_all [JsOutcome.isThrow]
  · unfold cartReducer
    split_ifs with h1 h2 h3 h4
    · rcases hfind : gs.items.find? (fun item => item.id = ga.item.id) with _ | witem <;>
        rw [hfind] <;> simp_all [JsOutcome.isThrow]
    · rcases hfind : gs.items.find? (fun item => item.id = ga.id) with _ | witem
      · rw [hfind]
        rw [List.find?_eq_none] at hfind
        simp only [JsOutcome.isThrow, true_iff]
        refine ⟨Or.inl h2, ?_⟩
        rintro ⟨item, hmem, hid⟩
        exact absurd (by simpa using hfind item hmem) (by simp [hid])
      · rw [hfind]
        have hmem := List.mem_of_find?_eq_some hfind
        have hid : witem.id = ga.id := by simpa using List.find?_some hfind
        simp [JsOutcome.isThrow]
        intro h
        exact ⟨witem, hmem, hid⟩
    · rcases hfind : gs.items.find? (fun item => item.id = ga.id) with _ | witem
      · rw [hfind]
        rw [List.find?_eq_none] at hfind
        simp only [JsOutcome.isThrow, true_iff]
        refine ⟨Or.inr h3, ?_⟩
        rintro ⟨item, hmem, hid⟩
        exact absurd (by simpa using hfind item hmem) (by simp [hid])
      · rw [hfind]
        have hmem := List.mem_of_find?_eq_some hfind
        have hid : witem.id = ga.id := by simpa using List.find?_some hfind
        simp [JsOutcome.isThrow]
        intro h
        exact ⟨witem, hmem, hid⟩
    · simp_all [JsOutcome.isThrow]
    · simp_all [JsOutcome.isThrow]

/-- Witness for the amended C3 at concrete inputs: formReducer does not throw
on an unrecognized action, counterReducer throws on one, and cartReducer
throws on REMOVE_ITEM against an empty cart. -/
theorem reducers_throw_characterization_witness :
    (formReducer formInitialState
       { type := "NOPE", field := "", value := "", error := "", errors := [] }).isThrow
      = false ∧
    (counterReducer counterInitialState { type := "NOPE", payload := 0 }).isThrow
      = true ∧
    (cartReducer cartInitialState
       { type := "REMOVE_ITEM", item := { id := 0, name := "", price := 0 },
         id := 1, quantity := 0 }).isThrow = true :=
  ⟨(reducers_throw_characterization counterInitialState
      { type := "NOPE", payload := 0 } formInitialState
      { type := "NOPE", field := "", value := "", error := "", errors := [] }
      todoInitialState { type := "NOPE", text := "", id := 0, filter := "" }
      cartInitialState
      { type := "REMOVE_ITEM", item := { id := 0, name := "", price := 0 },
        id := 1, quantity := 0 }).1,
   (reducers_throw_characterization counterInitialState
      { type := "NOPE", payload := 0 } formInitialState
      { type := "NOPE", field := "", value := "", error := "", errors := [] }
      todoInitialState { type := "NOPE", text := "", id := 0, filter := "" }
      cartInitialState
      { type := "REMOVE_ITEM", item := { id := 0, name := "", price := 0 },
        id := 1, quantity := 0 }).2.2.1.mpr (by decide),
   (reducers_throw_characterization counterInitialState
      { type := "NOPE", payload := 0 } formInitialState
      { type := "NOPE", field := "", value := "", error := "", errors := [] }
      todoInitialState { type := "NOPE", text := "", id := 0, filter := "" }
      cartInitialState
      { type := "REMOVE_ITEM", item := { id := 0, name := "", price := 0 },
        id := 1, quantity := 0 }).2.2.2.mpr ⟨Or.inl rfl, by decide⟩⟩

/-! ## The combined component state of UseReducerDemo (lines 190-195)

`UseReducerDemo` holds the four reducer states side by side via four
independent `useReducer` calls; dispatching an action to one of them replaces
only that reducer's state. A dispatch whose reducer throws updates nothing
(the exception escapes), embedded as `none`. -/

structure DemoState where
  counterState : CounterState
  formState : FormState
  todoState : TodoState
  cartState : CartState
deriving Repr, DecidableEq

def demoInitialState : DemoState :=
  { counterState := counterInitialState
    formState := formInitialState
    todoState := todoInitialState
    cartState := cartInitialState }

inductive DemoAction where
  | counterA (a : CounterAction)
  | formA (a : FormAction)
  | todoA (a : TodoAction)
  | cartA (a : CartAction)
deriving Repr, DecidableEq

def demoDispatch (s : DemoState) : DemoAction → Option DemoState
  | .counterA a =>
      ((counterReducer s.counterState a).run counterInitialState s.counterState).map
        (fun c => { s with counterState := c })
  | .formA a =>
      ((formReducer s.formState a).run formInitialState s.formState).map
        (fun f => { s with formState := f })
  | .todoA a =>
      ((todoReducer s.todoState a).run todoInitialState s.todoState).map
        (fun t => { s with todoState := t })
  | .cartA a =>
      ((cartReducer s.cartState a).run cartInitialState s.cartState).map
        (fun c => { s with cartState := c })

/-- Claim C5: the four reducer states in UseReducerDemo are isolated —
dispatching an action to one of the four reducers leaves the states of the
other three reducers unchanged. -/
theorem reducer_states_isolated (s s' : DemoState) :
    (∀ a : CounterAction, demoDispatch s (.counterA a) = some s' →
       s'.formState = s.formState ∧ s'.todoState = s.todoState ∧
       s'.cartState = s.cartState) ∧
    (∀ a : FormAction, demoDispatch s (.formA a) = some s' →
       s'.counterState = s.counterState ∧ s'.todoState = s.todoState ∧
       s'.cartState = s.cartState) ∧
    (∀ a : TodoAction, demoDispatch s (.todoA a) = some s' →
       s'.counterState = s.counterState ∧ s'.formState = s.formState ∧
       s'.cartState = s.cartState) ∧
    (∀ a : CartAction, demoDispatch s (.cartA a) = some s' →
       s'.counterState = s.counterState ∧ s'.formState = s.formState ∧
       s'.todoState = s.todoState) := by
  refine ⟨?_, ?_, ?_, ?_⟩ <;> intro a h <;>
    simp only [demoDispatch, Option.map_eq_some'] at h <;>
    obtain ⟨c, -, rfl⟩ := h <;> exact ⟨rfl, rfl, rfl⟩

/-- Witness for C5: dispatching INCREMENT to the counter reducer at the
initial combined state leaves the form, todo and cart states unchanged. -/
theorem reducer_states_isolated_witness :
    (DemoState.mk { count := 1 } formInitialState todoInitialState
        cartInitialState).formState = demoInitialState.formState ∧
    (DemoState.mk { count := 1 } formInitialState todoInitialState
        cartInitialState).todoState = demoInitialState.todoState ∧
    (DemoState.mk { count := 1 } formInitialState todoInitialState
        cartInitialState).cartState = demoInitialState.cartState :=
  (reducer_states_isolated demoInitialState
      (DemoState.mk { count := 1 } formInitialState todoInitialState
        cartInitialState)).1
    { type := "INCREMENT", payload := 0 } (by decide)

/-- Claim C6: state shapes are preserved: for every counter state of shape
with a numeric count and every recognized counter action (the INCREMENT_BY
payload being numeric), counterReducer returns a state of that same shape;
and for every todo state of shape (todos list, filter string, nextId number)
and every todo action, todoReducer returns a state of the same shape. -/
theorem reducers_preserve_shape (s : CounterState) (a : CounterAction)
    (ts : TodoState) (ta : TodoAction) :
    ((a.type = "INCREMENT" ∨ a.type = "DECREMENT" ∨ a.type = "RESET" ∨
        a.type = "INCREMENT_BY") →
      ∃ n : Int, (counterReducer s a).run counterInitialState s
        = some { count := n }) ∧
    (∃ (todos : List Todo) (fil : String) (nid : Int),
      (todoReducer ts ta).run todoInitialState ts
        = some { todos := todos, filter := fil, nextId := nid }) := by
  constructor
  · intro h
    unfold counterReducer
    split_ifs with h1 h2 h3 h4
    · exact ⟨s.count + 1, rfl⟩
    · exact ⟨s.count - 1, rfl⟩
    · exact ⟨0, rfl⟩
    · exact ⟨s.count + a.payload, rfl⟩
    · simp_all
  · unfold todoReducer
    split_ifs <;>
      exact ⟨_, _, _, rfl⟩

/-- Witness for C6: the INCREMENT action on the initial counter state, and an
ADD_TODO action on the initial todo state. -/
theorem reducers_preserve_shape_witness :
    (∃ n : Int, (counterReducer counterInitialState
        { type := "INCREMENT", payload := 0 }).run counterInitialState
        counterInitialState = some { count := n }) ∧
    (∃ (todos : List Todo) (fil : String) (nid : Int),
      (todoReducer todoInitialState
          { type := "ADD_TODO", text := "buy milk", id := 0, filter := "" }).run
          todoInitialState todoInitialState
        = some { todos := todos, filter := fil, nextId := nid }) :=
  ⟨(reducers_preserve_shape counterInitialState
      { type := "INCREMENT", payload := 0 } todoInitialState
      { type := "ADD_TODO", text := "buy milk", id := 0, filter := "" }).1
      (Or.inl rfl),
   (reducers_preserve_shape counterInitialState
      { type := "INCREMENT", payload := 0 } todoInitialState
      { type := "ADD_TODO", text := "buy milk", id := 0, filter := "" }).2⟩

/-- Claim C7, counterexample: the effect of UseEffectDemo with dependency
array containing count performs a localStorage write on every run — the
program does write state to persistent storage. -/
theorem countEffect_contains_storage_write :
    (UseEffectDemo.countEffect 0).filter (fun e => e.isStorageWrite)
      = [BrowserEffect.storageWrite "savedCount" "0"] ∧
    ¬((UseEffectDemo.countEffect 0).filter (fun e => e.isStorageWrite) = []) :=
  ⟨rfl, by decide⟩

/-- Claim C7, amended: the program does write state to persistent storage in
exactly one place: each run of UseEffectDemo's count-dependent effect writes
the string value of count to localStorage under the key savedCount; the
every-render effect and the mount effect of UseEffectDemo perform no storage
write. -/
theorem storage_writes_characterization (count : Int) :
    (UseEffectDemo.countEffect count).filter (fun e => e.isStorageWrite)
      = [BrowserEffect.storageWrite "savedCount" (toString count)] ∧
    (UseEffectDemo.renderEffect count).filter (fun e => e.isStorageWrite) = [] ∧
    (UseEffectDemo.mountEffect).filter (fun e => e.isStorageWrite) = [] := by
  refine ⟨?_, rfl, rfl⟩
  simp [UseEffectDemo.countEffect, BrowserEffect.isStorageWrite]

/-! ## Reachability of reducer states

`TodoReach` (resp. `CartReach`) holds of the states reachable from the
initial state by dispatching any sequence of actions (for the cart, actions
satisfying the preconditions `cartActionOk` of claim C8). -/

inductive TodoReach : TodoState → Prop where
  | init : TodoReach todoInitialState
  | step {s s' : TodoState} {a : TodoAction} (hr : TodoReach s)
      (hstep : todoRun s a = some s') : TodoReach s'

/-- One dispatch preserves the todo id-freshness invariant. -/
theorem todoInv_step {s s' : TodoState} {a : TodoAction}
    (hnd : (s.todos.map (fun t => t.id)).Nodup)
    (hlt : ∀ t ∈ s.todos, t.id < s.nextId)
    (hstep : todoRun s a = some s') :
    (s'.todos.map (fun t => t.id)).Nodup ∧ ∀ t ∈ s'.todos, t.id < s'.nextId := by
  unfold todoRun todoReducer at hstep
  split_ifs at hstep with h1 h2 h3 h4 h5 h6 <;>
    simp only [JsOutcome.run, Option.some.injEq] at hstep <;> subst hstep
  · -- ADD_TODO
    constructor
    · simp only [List.map_append, List.map_cons, List.map_nil]
      refine List.Nodup.append hnd (List.nodup_singleton _) ?_
      intro x hx
      simp only [List.mem_map] at hx
      obtain ⟨t, ht, rfl⟩ := hx
      simp only [List.mem_singleton]
      exact Int.ne_of_lt (hlt t ht)
    · show ∀ t ∈ s.todos ++ [{ id := s.nextId, text := a.text, completed := false }],
        t.id < s.nextId + 1
      intro t ht
      simp only [List.mem_append, List.mem_singleton] at ht
      rcases ht with ht | rfl
      · have := hlt t ht
        omega
      · show s.nextId < s.nextId + 1
        omega
  · -- TOGGLE_TODO
    constructor
    · rw [map_map_of_comp_eq _ _ _ (fun x => by split <;> rfl)]
      exact hnd
    · intro t ht
      simp only [List.mem_map] at ht
      obtain ⟨t₀, ht₀, rfl⟩ := ht
      have : (if t₀.id = a.id then { t₀ with completed := !t₀.completed } else t₀).id
          = t₀.id := by split <;> rfl
      rw [this]
      exact hlt t₀ ht₀
  · -- DELETE_TODO
    constructor
    · exact List.Nodup.sublist (List.Sublist.map _ (List.filter_sublist _)) hnd
    · intro t ht
      exact hlt t (List.mem_of_mem_filter ht)
  · -- EDIT_TODO
    constructor
    · rw [map_map_of_comp_eq _ _ _ (fun x => by split <;> rfl)]
      exact hnd
    · intro t ht
      simp only [List.mem_map] at ht
      obtain ⟨t₀, ht₀, rfl⟩ := ht
      have : (if t₀.id = a.id then { t₀ with text := a.text } else t₀).id = t₀.id := by
        split <;> rfl
      rw [this]
      exact hlt t₀ ht₀
  · -- SET_FILTER
    exact ⟨hnd, hlt⟩
  · -- CLEAR_COMPLETED
    constructor
    · exact List.Nodup.sublist (List.Sublist.map _ (List.filter_sublist _)) hnd
    · intro t ht
      exact hlt t (List.mem_of_mem_filter ht)
  · -- default: return state
    exact ⟨hnd, hlt⟩

/-- Claim C9: starting from todoInitialState, after any sequence of
todoReducer actions the ids of the todos are pairwise distinct and each is
strictly less than nextId. -/
theorem todo_ids_fresh {s : TodoState} (h : TodoReach s) :
    (s.todos.map (fun t => t.id)).Nodup ∧ ∀ t ∈ s.todos, t.id < s.nextId := by
  induction h with
  | init => exact ⟨by simp [todoInitialState], by simp [todoInitialState]⟩
  | step hr hstep ih => exact todoInv_step ih.1 ih.2 hstep

/-- Witness for C9: the state reached from the initial todo state by one
ADD_TODO dispatch. -/
theorem todo_ids_fresh_witness :
    ((TodoState.mk [Todo.mk 1 "buy milk" false] "all" 2).todos.map
        (fun t => t.id)).Nodup ∧
    ∀ t ∈ (TodoState.mk [Todo.mk 1 "buy milk" false] "all" 2).todos,
      t.id < (TodoState.mk [Todo.mk 1 "buy milk" false] "all" 2).nextId :=
  todo_ids_fresh (TodoReach.step TodoReach.init
    (show todoRun todoInitialState
        { type := "ADD_TODO", text := "buy milk", id := 0, filter := "" }
      = some (TodoState.mk [Todo.mk 1 "buy milk" false] "all" 2) by decide))

/-- Preconditions of claim C8 on a single cart action: REMOVE_ITEM and
UPDATE_QUANTITY name an id present in the items, and ADD_ITEM for an
already-present id carries the same price as the stored item. -/
def cartActionOk (s : CartState) (a : CartAction) : Prop :=
  ((a.type = "REMOVE_ITEM" ∨ a.type = "UPDATE_QUANTITY") →
     ∃ item ∈ s.items, item.id = a.id) ∧
  (a.type = "ADD_ITEM" →
     ∀ item ∈ s.items, item.id = a.item.id → item.price = a.item.price)

inductive CartReach : CartState → Prop where
  | init : CartReach cartInitialState
  | step {s s' : CartState} {a : CartAction} (hr : CartReach s)
      (hok : cartActionOk s a) (hstep : cartRun s a = some s') : CartReach s'

theorem cartTotalOf_filter_of_find? (i : Int) (items : List CartItem) :
    ∀ item : CartItem,
      (items.map (fun it => it.id)).Nodup →
      items.find? (fun it => it.id = i) = some item →
      cartTotalOf (items.filter (fun it => it.id ≠ i)) =
        cartTotalOf items - item.price * item.quantity := by
  induction items with
  | nil => intro item _ hfind; simp at hfind
  | cons hd tl ih =>
      intro item hnd hfind
      by_cases h : hd.id = i
      · rw [List.find?_cons_of_pos _ (by simpa using h)] at hfind
        obtain rfl : hd = item := by injection hfind
        have hnotin : hd.id ∉ tl.map (fun it => it.id) :=
          (List.nodup_cons.mp (by simpa using hnd)).1
        rw [List.filter_cons_of_neg (by simpa using h)]
        rw [List.filter_eq_self.mpr ?_]
        · rw [cartTotalOf_cons]; ring
        · intro x hx
          simp only [decide_not, Bool.not_eq_true', decide_eq_false_iff_not]
          intro hxi
          exact hnotin (by rw [h, ← hxi]; exact List.mem_map_of_mem _ hx)
      · rw [List.find?_cons_of_neg _ (by simpa using h)] at hfind
        rw [List.filter_cons_of_pos (by simpa using h)]
        rw [cartTotalOf_cons, cartTotalOf_cons,
          ih item (by simpa using (List.nodup_cons.mp (by simpa using hnd)).2) hfind]
        ring

theorem cartTotalOf_map_set_quantity (i q : Int) (items : List CartItem) :
    ∀ item : CartItem,
      (items.map (fun it => it.id)).Nodup →
      items.find? (fun it => it.id = i) = some item →
      cartTotalOf (items.map (fun it =>
          if it.id = i then { it with quantity := q } else it)) =
        cartTotalOf items + item.price * (q - item.quantity) := by
  induction items with
  | nil => intro item _ hfind; simp at hfind
  | cons hd tl ih =>
      intro item hnd hfind
      by_cases h : hd.id = i
      · rw [List.find?_cons_of_pos _ (by simpa using h)] at hfind
        obtain rfl : hd = item := by injection hfind
        have hnotin : hd.id ∉ tl.map (fun it => it.id) :=
          (List.nodup_cons.mp (by simpa using hnd)).1
        rw [List.map_cons, if_pos h]
        rw [list_map_eq_self tl _ ?_]
        · rw [cartTotalOf_cons, cartTotalOf_cons]; ring
        · intro x hx
          rw [if_neg]
          intro hxi
          exact hnotin (by rw [h, ← hxi]; exact List.mem_map_of_mem _ hx)
      · rw [List.find?_cons_of_neg _ (by simpa using h)] at hfind
        rw [List.map_cons, if_neg h]
        rw [cartTotalOf_cons, cartTotalOf_cons,
          ih item (by simpa using (List.nodup_cons.mp (by simpa using hnd)).2) hfind]
        ring

theorem cartTotalOf_map_inc_quantity (i : Int) (items : List CartItem) :
    ∀ item : CartItem,
      (items.map (fun it => it.id)).Nodup →
      items.find? (fun it => it.id = i) = some item →
      cartTotalOf (items.map (fun it =>
          if it.id = i then { it with quantity := it.quantity + 1 } else it)) =
        cartTotalOf items + item.price := by
  induction items with
  | nil => intro item _ hfind; simp at hfind
  | cons hd tl ih =>
      intro item hnd hfind
      by_cases h : hd.id = i
      · rw [List.find?_cons_of_pos _ (by simpa using h)] at hfind
        obtain rfl : hd = item := by injection hfind
        have hnotin : hd.id ∉ tl.map (fun it => it.id) :=
          (List.nodup_cons.mp (by simpa using hnd)).1
        rw [List.map_cons, if_pos h]
        rw [list_map_eq_self tl _ ?_]
        · rw [cartTotalOf_cons, cartTotalOf_cons]; ring
        · intro x hx
          rw [if_neg]
          intro hxi
          exact hnotin (by rw [h, ← hxi]; exact List.mem_map_of_mem _ hx)
      · rw [List.find?_cons_of_neg _ (by simpa using h)] at hfind
        rw [List.map_cons, if_neg h]
        rw [cartTotalOf_cons, cartTotalOf_cons,
          ih item (by simpa using (List.nodup_cons.mp (by simpa using hnd)).2) hfind]
        ring

/-- One dispatch satisfying the C8 preconditions preserves distinctness of
the item ids and the total/sum identity. -/
theorem cartInv_step {s s' : CartState} {a : CartAction}
    (hnd : (s.items.map (fun it => it.id)).Nodup)
    (htot : s.total = cartTotalOf s.items)
    (hok : cartActionOk s a) (hstep : cartRun s a = some s') :
    (s'.items.map (fun it => it.id)).Nodup ∧ s'.total = cartTotalOf s'.items := by
  unfold cartRun cartReducer at hstep
  split_ifs at hstep with h1 h2 h3 h4
  · -- ADD_ITEM
    rcases hfind : s.items.find? (fun item => item.id = a.item.id) with _ | witem
    · rw [hfind] at hstep
      simp only [JsOutcome.run, Option.some.injEq] at hstep
      subst hstep
      rw [List.find?_eq_none] at hfind
      have hnotin : a.item.id ∉ s.items.map (fun it => it.id) := by
        intro hmem
        simp only [List.mem_map] at hmem
        obtain ⟨x, hx, hxid⟩ := hmem
        exact absurd hxid (by simpa using hfind x hx)
      constructor
      · simp only [List.map_append, List.map_cons, List.map_nil]
        exact List.Nodup.append hnd (List.nodup_singleton _)
          (fun y hy hy2 => hnotin (List.mem_singleton.mp hy2 ▸ hy))
      · show s.total + a.item.price = cartTotalOf (s.items ++
          [{ id := a.item.id, name := a.item.name, price := a.item.price,
             quantity := 1 }])
        rw [cartTotalOf_append, htot]
        simp [cartTotalOf]
    · rw [hfind] at hstep
      simp only [JsOutcome.run, Option.some.injEq] at hstep
      subst hstep
      have hpr : witem.price = a.item.price :=
        hok.2 h1 witem (List.mem_of_find?_eq_some hfind)
          (by simpa using List.find?_some hfind)
      constructor
      · show ((s.items.map (fun item =>
            if item.id = a.item.id then { item with quantity := item.quantity + 1 }
            else item)).map (fun it => it.id)).Nodup
        rw [map_map_of_comp_eq _ _ _ (fun x => by split <;> rfl)]
        exact hnd
      · show s.total + a.item.price = cartTotalOf (s.items.map (fun item =>
          if item.id = a.item.id then { item with quantity := item.quantity + 1 }
          else item))
        rw [cartTotalOf_map_inc_quantity a.item.id s.items witem hnd hfind, hpr,
          htot]
  · -- REMOVE_ITEM
    rcases hfind : s.items.find? (fun item => item.id = a.id) with _ | witem
    · rw [hfind] at hstep
      simp [JsOutcome.run] at hstep
    · rw [hfind] at hstep
      simp only [JsOutcome.run, Option.some.injEq] at hstep
      subst hstep
      constructor
      · exact List.Nodup.sublist (List.Sublist.map _ (List.filter_sublist _)) hnd
      · show s.total - witem.price * witem.quantity
          = cartTotalOf (s.items.filter (fun it => it.id ≠ a.id))
        rw [cartTotalOf_filter_of_find? a.id s.items witem hnd hfind, htot]
  · -- UPDATE_QUANTITY
    rcases hfind : s.items.find? (fun item => item.id = a.id) with _ | witem
    · rw [hfind] at hstep
      simp [JsOutcome.run] at hstep
    · rw [hfind] at hstep
      simp only [JsOutcome.run, Option.some.injEq] at hstep
      subst hstep
      constructor
      · show ((s.items.map (fun it =>
            if it.id = a.id then { it with quantity := a.quantity } else it)).map
            (fun it => it.id)).Nodup
        rw [map_map_of_comp_eq _ _ _ (fun x => by split <;> rfl)]
        exact hnd
      · show s.total + witem.price * (a.quantity - witem.quantity)
          = cartTotalOf (s.items.map (fun it =>
              if it.id = a.id then { it with quantity := a.quantity } else it))
        rw [cartTotalOf_map_set_quantity a.id a.quantity s.items witem hnd hfind,
          htot]
  · -- CLEAR_CART
    simp only [JsOutcome.run, Option.some.injEq] at hstep
    subst hstep
    exact ⟨by simp [cartInitialState], by simp [cartInitialState, cartTotalOf]⟩
  · -- default: return state
    simp only [JsOutcome.run, Option.some.injEq] at hstep
    subst hstep
    exact ⟨hnd, htot⟩

/-- The C8 invariant holds of every reachable cart state. -/
theorem cartReach_inv {s : CartState} (h : CartReach s) :
    (s.items.map (fun it => it.id)).Nodup ∧ s.total = cartTotalOf s.items := by
  induction h with
  | init => exact ⟨by simp [cartInitialState], by simp [cartInitialState, cartTotalOf]⟩
  | step hr hok hstep ih => exact cartInv_step ih.1 ih.2 hok hstep

/-- Claim C8: starting from cartInitialState, after any sequence of
cartReducer actions satisfying the stated preconditions, the total equals the
sum over the items of price times quantity. -/
theorem cart_total_consistent {s : CartState} (h : CartReach s) :
    s.total = cartTotalOf s.items :=
  (cartReach_inv h).2

/-- Witness for C8: the state reached from the initial cart state by one
ADD_ITEM dispatch with the Laptop product. -/
theorem cart_total_consistent_witness :
    (CartState.mk [CartItem.mk 1 "Laptop" 999 1] 999).total
      = cartTotalOf (CartState.mk [CartItem.mk 1 "Laptop" 999 1] 999).items :=
  cart_total_consistent (CartReach.step CartReach.init
    (show cartActionOk cartInitialState
        { type := "ADD_ITEM", item := { id := 1, name := "Laptop", price := 999 },
          id := 0, quantity := 0 } by
      constructor
      · intro hc
        rcases hc with hc | hc <;> simp at hc
      · intro _ item hmem
        simp [cartInitialState] at hmem)
    (show cartRun cartInitialState
        { type := "ADD_ITEM", item := { id := 1, name := "Laptop", price := 999 },
          id := 0, quantity := 0 }
      = some (CartState.mk [CartItem.mk 1 "Laptop" 999 1] 999) by decide))

/-- On a REMOVE_ITEM action the cart reducer reduces to the find-then-branch
on the sought item (definitional unfolding). -/
theorem cartReducer_remove_eq (s : CartState) (p : Product) (i q : Int) :
    cartReducer s { type := "REMOVE_ITEM", item := p, id := i, quantity := q }
      = match s.items.find? (fun item => item.id = i) with
        | some item => JsOutcome.fresh
            { items := s.items.filter (fun it => it.id ≠ i)
              total := s.total - item.price * item.quantity }
        | none => JsOutcome.throws
            "TypeError: Cannot read properties of undefined (reading price)" :=
  rfl

/-- On an UPDATE_QUANTITY action the cart reducer reduces to the
find-then-branch on the sought item (definitional unfolding). -/
theorem cartReducer_update_eq (s : CartState) (p : Product) (i q : Int) :
    cartReducer s { type := "UPDATE_QUANTITY", item := p, id := i, quantity := q }
      = match s.items.find? (fun item => item.id = i) with
        | some item => JsOutcome.fresh
            { items := s.items.map (fun it =>
                if it.id = i then { it with quantity := q } else it)
              total := s.total + item.price * (q - item.quantity) }
        | none => JsOutcome.throws
            "TypeError: Cannot read properties of undefined (reading quantity)" :=
  rfl

/-- Claim C10: for every cart state and every REMOVE_ITEM or UPDATE_QUANTITY
action, if some item has the action's id then the `find` lookup succeeds and
cartReducer returns a (newly constructed) state without faulting; if no item
has that id, the lookup yields nothing and the subsequent access to the
missing item's price or quantity faults. -/
theorem cart_lookup_safety (s : CartState) (p : Product) (i q : Int) :
    ((∃ item ∈ s.items, item.id = i) →
       (s.items.find? (fun item => item.id = i)).isSome = true ∧
       (∃ s₁, cartReducer s
           { type := "REMOVE_ITEM", item := p, id := i, quantity := q }
         = JsOutcome.fresh s₁) ∧
       (∃ s₂, cartReducer s
           { type := "UPDATE_QUANTITY", item := p, id := i, quantity := q }
         = JsOutcome.fresh s₂)) ∧
    ((¬∃ item ∈ s.items, item.id = i) →
       s.items.find? (fun item => item.id = i) = none ∧
       (∃ m, cartReducer s
           { type := "REMOVE_ITEM", item := p, id := i, quantity := q }
         = JsOutcome.throws m) ∧
       (∃ m, cartReducer s
           { type := "UPDATE_QUANTITY", item := p, id := i, quantity := q }
         = JsOutcome.throws m)) := by
  constructor
  · intro hex
    rcases hfind : s.items.find? (fun item => item.id = i) with _ | witem
    · exfalso
      rw [List.find?_eq_none] at hfind
      obtain ⟨x, hx, hxi⟩ := hex
      exact absurd hxi (by simpa using hfind x hx)
    · refine ⟨by simp [hfind], ?_, ?_⟩
      · rw [cartReducer_remove_eq, hfind]
        exact ⟨_, rfl⟩
      · rw [cartReducer_update_eq, hfind]
        exact ⟨_, rfl⟩
  · intro hnex
    rcases hfind : s.items.find? (fun item => item.id = i) with _ | witem
    · refine ⟨hfind, ?_, ?_⟩
      · rw [cartReducer_remove_eq, hfind]
        exact ⟨_, rfl⟩
      · rw [cartReducer_update_eq, hfind]
        exact ⟨_, rfl⟩
    · exfalso
      exact hnex ⟨witem, List.mem_of_find?_eq_some hfind,
        by simpa using List.find?_some hfind⟩

/-- Witness for C10: a one-item cart where the present id 1 succeeds, and the
empty cart where id 1 faults. -/
theorem cart_lookup_safety_witness :
    ((([CartItem.mk 1 "Laptop" 999 1] : List CartItem).find?
        (fun item => item.id = 1)).isSome = true ∧
     (∃ s₁, cartReducer (CartState.mk [CartItem.mk 1 "Laptop" 999 1] 999)
         { type := "REMOVE_ITEM", item := { id := 2, name := "Mouse", price := 29 },
           id := 1, quantity := 3 }
       = JsOutcome.fresh s₁) ∧
     (∃ s₂, cartReducer (CartState.mk [CartItem.mk 1 "Laptop" 999 1] 999)
         { type := "UPDATE_QUANTITY", item := { id := 2, name := "Mouse", price := 29 },
           id := 1, quantity := 3 }
       = JsOutcome.fresh s₂)) ∧
    ((([] : List CartItem).find? (fun item => item.id = 1)) = none ∧
     (∃ m, cartReducer cartInitialState
         { type := "REMOVE_ITEM", item := { id := 2, name := "Mouse", price := 29 },
           id := 1, quantity := 3 }
       = JsOutcome.throws m) ∧
     (∃ m, cartReducer cartInitialState
         { type := "UPDATE_QUANTITY", item := { id := 2, name := "Mouse", price := 29 },
           id := 1, quantity := 3 }
       = JsOutcome.throws m)) :=
  ⟨(cart_lookup_safety (CartState.mk [CartItem.mk 1 "Laptop" 999 1] 999)
      { id := 2, name := "Mouse", price := 29 } 1 3).1 (by decide),
   (cart_lookup_safety cartInitialState
      { id := 2, name := "Mouse", price := 29 } 1 3).2 (by decide)⟩
